import Mathlib

/-!
# Verification of the forecal feature-engineering and forecasting pipeline

Shallow embedding of the core pipeline of the `forecal` repository:

* `backend/scripts/data_extraction.py` — room-type mapping, stay expansion,
  daily occupancy aggregation (`_map_room_type`, `expand_stays_to_daily_rows`,
  `build_feature_dataset`);
* `backend/scripts/forecast.py` — calendar feature engineering
  (`_build_enrich_calendar_features`, `_future_calendar_2026`) and the
  history/forecast combiner (`combine_forecasts`).

Modelling conventions:

* Calendar dates are day ordinals (`Int`); pandas timestamps in the pipeline
  are date-granular (the extraction query filters `YYYY-MM-DD` strings).
* Money / rates / occupancy values are `ℚ` (Python floats behave exactly on
  the formulas at issue, which are compared formula-to-formula).
* Missing values (`NaN` / `None` / absent columns) are `Option.none`;
  `pandas.Series.get` with a default is `Option.getD`.
* Python string `strip` / `upper` / `lower` are re-implemented structurally
  over `List Char` (ASCII data), so that they compute inside the kernel.
* `DataFrame.sort_values` is modelled with a stable insertion sort keyed the
  way the source sorts (date, then room type).
* Holiday/event flag columns of `build_feature_dataset` (`Is_Holiday`,
  `Is_Weekend`, `Is_Event`, `Is_Fasting`) are orthogonal to every claim
  verified here and are omitted from the aggregate-row embedding.
-/

namespace Forecal

/-! ## Character and string helpers (Python `strip` / `upper` / `lower` on ASCII) -/

/-- Python `str.strip()` on the character list of a string. -/
def trimChars (s : List Char) : List Char :=
  ((s.dropWhile Char.isWhitespace).reverse.dropWhile Char.isWhitespace).reverse

/-- Python `str.strip()`. -/
def strTrim (s : String) : String := ⟨trimChars s.data⟩

/-- Python `str.upper()` (ASCII). -/
def strUpper (s : String) : String := ⟨s.data.map Char.toUpper⟩

/-- Python `str.lower()` (ASCII). -/
def strLower (s : String) : String := ⟨s.data.map Char.toLower⟩

/-- Code-point comparison of characters. -/
def charLtB (a b : Char) : Bool := decide (a.toNat < b.toNat)

/-- Lexicographic `≤` on character lists (how pandas orders `str` keys). -/
def charListLeB : List Char → List Char → Bool
  | [], _ => true
  | _ :: _, [] => false
  | a :: as, b :: bs =>
    if charLtB a b then true else if charLtB b a then false else charListLeB as bs

/-- Lexicographic `≤` on strings. -/
def strLeB (a b : String) : Bool := charListLeB a.data b.data

/-- `≤` on optional strings; missing values sort last (pandas `NaN` placement). -/
def optStrLeB : Option String → Option String → Bool
  | none, none => true
  | some _, none => true
  | none, some _ => false
  | some a, some b => strLeB a b

/-- First-occurrence deduplication, the order `pandas.unique` / `groupby` keys
use.  `uniqAux l seen` drops elements already in `seen`. -/
def uniqAux {α : Type} [DecidableEq α] : List α → List α → List α
  | [], _ => []
  | x :: xs, seen => if x ∈ seen then uniqAux xs seen else x :: uniqAux xs (x :: seen)

/-- `pandas.unique`: deduplicate keeping first occurrences. -/
def pdUnique {α : Type} [DecidableEq α] (l : List α) : List α := uniqAux l []

/-! ## Calendar feature builder
(`forecast.py`, `_build_enrich_calendar_features` lines 24–88 and the
identical block of `_future_calendar_2026` lines 122–186).

The input is the ordered per-date sequence the source builds (one row per
date after the groupby/sort), carrying the national-holiday and weekend
flags.  Every derived column is a boolean/int array of the same length `n`,
built with numpy shifts `np.r_[False, xs[:-1]]` and `np.r_[xs[1:], False]`;
`leftOf`/`rightOf` are the values of those shifted arrays at index `i`. -/

structure CalRow where
  isNatHol : Bool
  isWeekend : Bool
deriving DecidableEq

/-- Read a boolean array at `i`; out of range gives `false` (the shift padding). -/
def getB (xs : List Bool) (i : Nat) : Bool := xs.getD i false

/-- Value of `np.r_[False, xs[:-1]]` at index `i`. -/
def leftOf (xs : List Bool) (i : Nat) : Bool := if i = 0 then false else getB xs (i - 1)

/-- Value of `np.r_[xs[1:], False]` at index `i`. -/
def rightOf (xs : List Bool) (i : Nat) : Bool := getB xs (i + 1)

/-- Column `Is_NationalHoliday` as an array. -/
def natList (df : List CalRow) : List Bool := df.map (fun r => r.isNatHol)

/-- Column `Is_Weekend` as an array. -/
def weList (df : List CalRow) : List Bool := df.map (fun r => r.isWeekend)

/-- `seed_hol = Is_NationalHoliday | Is_Weekend`. -/
def seedList (df : List CalRow) : List Bool :=
  (List.range df.length).map (fun i => getB (natList df) i || getB (weList df) i)

/-- `is_bridge = (~seed_hol) & left_seed & right_seed`. -/
def bridgeList (df : List CalRow) : List Bool :=
  (List.range df.length).map
    (fun i => !getB (seedList df) i && (leftOf (seedList df) i && rightOf (seedList df) i))

/-- `base = is_nat | is_br`. -/
def baseList (df : List CalRow) : List Bool :=
  (List.range df.length).map (fun i => getB (natList df) i || getB (bridgeList df) i)

/-- `wk1 = is_we & (left_base | right_base)`. -/
def wk1List (df : List CalRow) : List Bool :=
  (List.range df.length).map
    (fun i => getB (weList df) i && (leftOf (baseList df) i || rightOf (baseList df) i))

/-- `wk2 = is_we & (left_wk1 | right_wk1)`. -/
def wk2List (df : List CalRow) : List Bool :=
  (List.range df.length).map
    (fun i => getB (weList df) i && (leftOf (wk1List df) i || rightOf (wk1List df) i))

/-- `is_holiday_final = base | wk1 | wk2`. -/
def isHolidayList (df : List CalRow) : List Bool :=
  (List.range df.length).map
    (fun i => getB (baseList df) i || (getB (wk1List df) i || getB (wk2List df) i))

/-- The spec's "pass 1": a weekend day adjacent to a `base` day.  Stated as
the claim words it; coincides with the source's array `wk1` (proved below). -/
def pass1At (df : List CalRow) (i : Nat) : Bool :=
  getB (weList df) i &&
    ((if i = 0 then false else getB (baseList df) (i - 1)) || getB (baseList df) (i + 1))

/-- The spec's "pass 2": a weekend day adjacent to a pass-1 day. -/
def pass2At (df : List CalRow) (i : Nat) : Bool :=
  getB (weList df) i &&
    ((if i = 0 then false else pass1At df (i - 1)) || pass1At df (i + 1))

/-! ### Distance to nearest holiday (`forecast.py` lines 64–82) -/

/-- The sentinel `INF = 10**9` of the source. -/
def INF : Int := 10 ^ 9

/-- Forward scan: `if is_hol[i]: last = i; dist_fwd[i] = i - last`,
with `last` initialised to `-INF`. -/
def distFwdGo : List Bool → Int → Nat → List Int
  | [], _, _ => []
  | h :: t, last, i =>
    ((i : Int) - (if h then (i : Int) else last)) ::
      distFwdGo t (if h then (i : Int) else last) (i + 1)

def distFwdList (hol : List Bool) : List Int := distFwdGo hol (-INF) 0

/-- Backward scan, processed right-to-left: returns the `dist_bwd` array for the
suffix starting at absolute index `i` together with the running `last`
(nearest holiday index at or after `i`; `INF` when none). -/
def distBwdGo : List Bool → Nat → List Int × Int
  | [], _ => ([], INF)
  | h :: t, i =>
    ⟨((if h then (i : Int) else (distBwdGo t (i + 1)).2) - (i : Int)) ::
        (distBwdGo t (i + 1)).1,
      if h then (i : Int) else (distBwdGo t (i + 1)).2⟩

def distBwdList (hol : List Bool) : List Int := (distBwdGo hol 0).1

/-- `dist = np.minimum(dist_fwd, dist_bwd); dist[is_hol] = 0`. -/
def distanceList (hol : List Bool) : List Int :=
  (List.range hol.length).map
    (fun i => if getB hol i then 0
      else min ((distFwdList hol).getD i 0) ((distBwdList hol).getD i 0))

/-! ## Reservation expansion (`data_extraction.py` lines 85–146) -/

/-- One row of the reservation extract; `none` models a missing / unparseable
value (a date that fails `pd.to_datetime(..., errors="coerce")` is `none`). -/
structure Reservation where
  arrivalDate : Option Int
  departDate : Option Int
  roomType : Option String
  arrangement : Option String
  roomNumber : Option Int
  segment : Option String
  roomRate : Option ℚ
deriving DecidableEq

/-- One expanded daily stay row. -/
structure DailyRow where
  date : Int
  roomType : Option String
  arrangement : Option String
  roomNumber : Option Int
  segment : Option String
  nightlyRate : Option ℚ
deriving DecidableEq

/-- `_map_room_type`: first letter of the stripped, upper-cased raw value. -/
def map_room_type : Option String → Option String
  | none => none
  | some raw =>
    if raw.data.isEmpty then none
    else
      if (strUpper (strTrim raw)).data.head? = some 'D' then some "Deluxe"
      else if (strUpper (strTrim raw)).data.head? = some 'E' then some "Executive Suite"
      else if (strUpper (strTrim raw)).data.head? = some 'S' then some "Suite"
      else if (strUpper (strTrim raw)).data.head? = some 'B' then some "Executive Suite"
      else if (strUpper (strTrim raw)).data.head? = some 'F' then some "Family Suite"
      else none

/-- `final_room = mapped_room if mapped_room else (str(raw).strip() or None)`. -/
def finalRoomType (r : Reservation) : Option String :=
  match map_room_type r.roomType with
  | some m => some m
  | none =>
    match r.roomType with
    | some raw => if strTrim raw = "" then none else some (strTrim raw)
    | none => none

/-- Daily rows of one reservation: one row per date of
`pd.date_range(arrival, depart - 1 day)`, skipped when `depart <= arrival`
or a date is unparseable. -/
def stayRows (r : Reservation) : List DailyRow :=
  match r.arrivalDate, r.departDate with
  | some a, some d =>
    if d ≤ a then []
    else
      (List.range (d - a).toNat).map (fun k : Nat =>
        { date := a + (k : Int), roomType := finalRoomType r, arrangement := r.arrangement,
          roomNumber := r.roomNumber, segment := r.segment, nightlyRate := r.roomRate })
  | _, _ => []

/-- `expand_stays_to_daily_rows`, including the trailing
`daily[daily["room_type"].notna()]` filter. -/
def expand_stays_to_daily_rows (src : List Reservation) : List DailyRow :=
  (src.flatMap stayRows).filter (fun row => row.roomType.isSome)

/-! ## Daily occupancy aggregation (`build_feature_dataset`, lines 163–278) -/

/-- One row of the maintenance table. -/
structure MaintRow where
  date : Int
  roomType : String
  quantity : Int
deriving DecidableEq

/-- `daily["segment"].astype(str).str.upper()`; `str(NaN) = "nan"` upper-cases
to `"NAN"`. -/
def segmentUpper (r : DailyRow) : String :=
  match r.segment with
  | some s => strUpper s
  | none => "NAN"

/-- `paid_flag = ~segment_up.isin(excluded_segments)` (the excluded set is
already upper-cased by `build_feature_dataset`). -/
def paidFlag (excludedUp : List String) (r : DailyRow) : Bool :=
  !(excludedUp.contains (segmentUpper r))

/-- `valid_rate_flag = nightly_rate.notna() & paid_flag`. -/
def validRateFlag (excludedUp : List String) (r : DailyRow) : Bool :=
  r.nightlyRate.isSome && paidFlag excludedUp r

/-- `daily["date"].unique()`. -/
def uniqueDates (rows : List DailyRow) : List Int := pdUnique (rows.map (fun r => r.date))

/-- Rooms sold on a date: distinct non-null room numbers of paid rows. -/
def roomsSoldOn (excludedUp : List String) (rows : List DailyRow) (d : Int) : Nat :=
  (pdUnique ((rows.filter (fun r => decide (r.date = d) && paidFlag excludedUp r)).filterMap
    (fun r => r.roomNumber))).length

/-- Rooms blocked on a date: distinct non-null room numbers of excluded-segment rows. -/
def roomsBlockedOn (excludedUp : List String) (rows : List DailyRow) (d : Int) : Nat :=
  (pdUnique ((rows.filter (fun r => decide (r.date = d) && !paidFlag excludedUp r)).filterMap
    (fun r => r.roomNumber))).length

/-- Summed `Quantity` of the maintenance table for a date (`0` when the table
is absent; an empty table also sums to `0`). -/
def maintenanceOn (maint : Option (List MaintRow)) (d : Int) : Int :=
  match maint with
  | none => 0
  | some m => ((m.filter (fun x => decide (x.date = d))).map (fun x => x.quantity)).sum

/-- Inferred inventory: distinct non-null room numbers seen on the date. -/
def inferredInventory (rows : List DailyRow) (d : Int) : Int :=
  ((pdUnique ((rows.filter (fun r => decide (r.date = d))).filterMap
    (fun r => r.roomNumber))).length : Int)

/-- `sum(inventory_per_room_type.values())` when the map is supplied and
non-empty (Python dict truthiness), else the inferred count. -/
def totalInventoryOn (inv : Option (List (String × Int))) (rows : List DailyRow) (d : Int) :
    Int :=
  match inv with
  | some l => if l.isEmpty then inferredInventory rows d else (l.map (fun p => p.2)).sum
  | none => inferredInventory rows d

/-- `available_inventory = max(1, total_inventory - blocked - maintenance)`. -/
def availableInventoryOn (excludedUp : List String) (rows : List DailyRow)
    (maint : Option (List MaintRow)) (inv : Option (List (String × Int))) (d : Int) : Int :=
  max 1 (totalInventoryOn inv rows d - (roomsBlockedOn excludedUp rows d : Int) -
    maintenanceOn maint d)

/-- One entry of `daily_occ_data` (the per-date loop of `build_feature_dataset`). -/
structure OccEntry where
  date : Int
  dailyOccupancyRate : ℚ
  totalRoomsSold : Nat
  totalRoomsBlocked : Nat
  totalRoomsMaintenance : Int
  totalInventory : Int
  availableInventory : Int
deriving DecidableEq

/-- The per-date occupancy record appended by the loop. -/
def occEntryFor (excludedUp : List String) (rows : List DailyRow)
    (maint : Option (List MaintRow)) (inv : Option (List (String × Int))) (d : Int) :
    OccEntry :=
  { date := d,
    dailyOccupancyRate :=
      min 1 ((roomsSoldOn excludedUp rows d : ℚ) /
        (availableInventoryOn excludedUp rows maint inv d : ℚ)),
    totalRoomsSold := roomsSoldOn excludedUp rows d,
    totalRoomsBlocked := roomsBlockedOn excludedUp rows d,
    totalRoomsMaintenance := maintenanceOn maint d,
    totalInventory := totalInventoryOn inv rows d,
    availableInventory := availableInventoryOn excludedUp rows maint inv d }

/-- `daily_occ_data`: one record per unique date of the expanded rows. -/
def daily_occ_data (excludedUp : List String) (rows : List DailyRow)
    (maint : Option (List MaintRow)) (inv : Option (List (String × Int))) : List OccEntry :=
  (uniqueDates rows).map (occEntryFor excludedUp rows maint inv)

/-- Group keys of the ADR aggregation
(`groupby(["date", "room_type", "arrangement"])` over `valid_rate` rows). -/
def adrKeys (excludedUp : List String) (rows : List DailyRow) :
    List (Int × Option String × Option String) :=
  pdUnique ((rows.filter (validRateFlag excludedUp)).map
    (fun r => (r.date, r.roomType, r.arrangement)))

/-- Mean nightly rate over the `valid_rate` rows of one group key. -/
def avgRoomRateFor (excludedUp : List String) (rows : List DailyRow)
    (k : Int × Option String × Option String) : ℚ :=
  ((rows.filter (fun r => validRateFlag excludedUp r && decide (r.date = k.1) &&
      decide (r.roomType = k.2.1) && decide (r.arrangement = k.2.2))).filterMap
    (fun r => r.nightlyRate)).sum /
  (((rows.filter (fun r => validRateFlag excludedUp r && decide (r.date = k.1) &&
      decide (r.roomType = k.2.1) && decide (r.arrangement = k.2.2))).filterMap
    (fun r => r.nightlyRate)).length : ℚ)

/-- One row of the final aggregate table (holiday/event flag columns omitted;
no verified claim mentions them). -/
structure AggRow where
  date : Int
  roomType : Option String
  arrangement : String
  avgRoomRate : ℚ
  occupancyRate : ℚ
  roomsSold : Nat
  roomsExcluded : Nat
  roomsMaintenance : Int
  roomInventory : Int
  availableInventory : Int
deriving DecidableEq

/-- One aggregate row: the ADR group merged (on its date) with the per-date
occupancy record; `arrangement` gets `fillna("")`.  The merge on `date` is
function application because `daily_occ_df` has exactly one record per date. -/
def aggRowFor (excludedUp : List String) (rows : List DailyRow)
    (maint : Option (List MaintRow)) (inv : Option (List (String × Int)))
    (k : Int × Option String × Option String) : AggRow :=
  { date := k.1,
    roomType := k.2.1,
    arrangement := (k.2.2).getD "",
    avgRoomRate := avgRoomRateFor excludedUp rows k,
    occupancyRate := (occEntryFor excludedUp rows maint inv k.1).dailyOccupancyRate,
    roomsSold := (occEntryFor excludedUp rows maint inv k.1).totalRoomsSold,
    roomsExcluded := (occEntryFor excludedUp rows maint inv k.1).totalRoomsBlocked,
    roomsMaintenance := (occEntryFor excludedUp rows maint inv k.1).totalRoomsMaintenance,
    roomInventory := (occEntryFor excludedUp rows maint inv k.1).totalInventory,
    availableInventory := (occEntryFor excludedUp rows maint inv k.1).availableInventory }

/-- Sort key of `final.sort_values(["Date", "Room Type"])`. -/
def aggLe (a b : AggRow) : Prop :=
  a.date < b.date ∨ (a.date = b.date ∧ optStrLeB a.roomType b.roomType = true)

instance (a b : AggRow) : Decidable (aggLe a b) :=
  inferInstanceAs (Decidable
    (a.date < b.date ∨ (a.date = b.date ∧ optStrLeB a.roomType b.roomType = true)))

/-- `build_feature_dataset` (the aggregate table; flag columns omitted).
`excludedSegments` defaults to `["COMP", "HU"]` at the call site. -/
def build_feature_dataset (src : List Reservation) (excludedSegments : List String)
    (inv : Option (List (String × Int))) (maint : Option (List MaintRow)) : List AggRow :=
  List.insertionSort aggLe
    ((adrKeys (excludedSegments.map strUpper) (expand_stays_to_daily_rows src)).map
      (aggRowFor (excludedSegments.map strUpper) (expand_stays_to_daily_rows src) maint inv))

/-! ## Future-calendar holiday-kind flags
(`forecast.py`, `_future_calendar_2026` lines 103–120) -/

/-- One row of `holidays_info`. -/
structure HolidayInfoRow where
  date : Int
  kind : String
deriving DecidableEq

/-- The three kind flags of one future-calendar row. -/
structure KindFlags where
  isNationalHoliday : Bool
  isSchoolHoliday : Bool
  isEvent : Bool
deriving DecidableEq

def natKindsLower : List String := ["national", "joint", "national holiday", "joint holiday"]

def schoolKindsLower : List String := ["school", "school holiday"]

def eventKindsLower : List String := ["event"]

/-- `kind = str(info.iloc[0]["Kind"]).lower()` and the three membership tests. -/
def kindToFlags (kind : String) : KindFlags :=
  { isNationalHoliday := natKindsLower.contains (strLower kind),
    isSchoolHoliday := schoolKindsLower.contains (strLower kind),
    isEvent := eventKindsLower.contains (strLower kind) }

/-- `info = holidays[holidays["Date"] == date]`; only `info.iloc[0]` is read. -/
def holidayFlagsFor (holidays : List HolidayInfoRow) (d : Int) : KindFlags :=
  match holidays.filter (fun h => decide (h.date = d)) with
  | [] => ⟨false, false, false⟩
  | h :: _ => kindToFlags h.kind

/-! ## Forecast combiner (`forecast.py`, `combine_forecasts` lines 303–360) -/

/-- Historical input frame of `combine_forecasts`, restricted to the columns the
combiner reads.  Field value `none` stands for a missing column or `NaN`
(`row.get` with a default is `Option.getD`). -/
structure HistRow where
  date : Int
  roomType : Option String
  avgRoomRate : Option ℚ
  occupancyRate : Option ℚ
  isHoliday : Option Bool
  isWeekend : Option Bool
  isSchoolHoliday : Option Bool
  isEvent : Option Bool
deriving DecidableEq

/-- Occupancy-forecast row (only `Date` and `Forecasted_Occ` survive the merge
unsuffixed; the flag columns get `_occ` suffixes and are never read). -/
structure OccForecastRow where
  date : Int
  forecastedOcc : Option ℚ
deriving DecidableEq

/-- ARR-forecast row, with the columns `combine_forecasts` reads via
`r.get(...)`; `holidayBlockLength`/`isBridge` are `none` when the column is
absent (as in the pipeline's own `arr_out` schema, which lacks
`holiday_block_length`). -/
structure ArrForecastRow where
  date : Int
  roomType : Option String
  forecastedARR : Option ℚ
  isHoliday : Option Bool
  isWeekend : Option Bool
  isSchoolHoliday : Option Bool
  isEvent : Option Bool
  holidayBlockLength : Option Int
  isBridge : Option Bool
deriving DecidableEq

/-- One row of the combined output table. -/
structure CombinedRow where
  date : Int
  roomType : Option String
  avgRoomRate : Option ℚ
  occ : Option ℚ
  forecastedARR : Option ℚ
  forecastedOcc : Option ℚ
  errorARR : Option ℚ
  errorOcc : Option ℚ
  isHoliday : Option Bool
  isWeekend : Option Bool
  isSchoolHoliday : Option Bool
  isEvent : Option Bool
  holidayBlockLength : Int
  isBridge : Bool
deriving DecidableEq

/-- The historical branch of the combiner loop: actuals copied into the
forecast columns, error fields forced to `0`, `holiday_block_length = 0` and
`Is_Bridge = False` hard-coded. -/
def histToCombined (h : HistRow) : CombinedRow :=
  { date := h.date,
    roomType := h.roomType,
    avgRoomRate := h.avgRoomRate,
    occ := h.occupancyRate,
    forecastedARR := h.avgRoomRate,
    forecastedOcc := h.occupancyRate,
    errorARR := some 0,
    errorOcc := some 0,
    isHoliday := some (h.isHoliday.getD false),
    isWeekend := some (h.isWeekend.getD false),
    isSchoolHoliday := some (h.isSchoolHoliday.getD false),
    isEvent := some (h.isEvent.getD false),
    holidayBlockLength := 0,
    isBridge := false }

/-- `arr.merge(occ, on="Date", how="left", suffixes=("", "_occ"))`: each ARR
row paired with the `Forecasted_Occ` of every matching occupancy row, or with
`none` when no occupancy row matches. -/
def mergeArrOcc (arr : List ArrForecastRow) (occ : List OccForecastRow) :
    List (ArrForecastRow × Option ℚ) :=
  arr.flatMap (fun a =>
    match occ.filter (fun o => decide (o.date = a.date)) with
    | [] => [(a, none)]
    | ms => ms.map (fun o => (a, o.forecastedOcc)))

/-- The forecast branch of the combiner loop. -/
def fcToCombined (p : ArrForecastRow × Option ℚ) : CombinedRow :=
  { date := p.1.date,
    roomType := p.1.roomType,
    avgRoomRate := none,
    occ := none,
    forecastedARR := p.1.forecastedARR,
    forecastedOcc := p.2,
    errorARR := none,
    errorOcc := none,
    isHoliday := p.1.isHoliday,
    isWeekend := p.1.isWeekend,
    isSchoolHoliday := p.1.isSchoolHoliday,
    isEvent := p.1.isEvent,
    holidayBlockLength := p.1.holidayBlockLength.getD 0,
    isBridge := p.1.isBridge.getD false }

/-- Sort key of `final_df.sort_values(["Date", "Room Type"])`. -/
def combinedLe (a b : CombinedRow) : Prop :=
  a.date < b.date ∨ (a.date = b.date ∧ optStrLeB a.roomType b.roomType = true)

instance (a b : CombinedRow) : Decidable (combinedLe a b) :=
  inferInstanceAs (Decidable
    (a.date < b.date ∨ (a.date = b.date ∧ optStrLeB a.roomType b.roomType = true)))

/-- `combine_forecasts`: historical rows first, then the merged forecast rows,
sorted by (`Date`, `Room Type`). -/
def combine_forecasts (occF : List OccForecastRow) (arrF : List ArrForecastRow)
    (hist : List HistRow) : List CombinedRow :=
  List.insertionSort combinedLe
    (hist.map histToCombined ++ (mergeArrOcc arrF occF).map fcToCombined)

/-- Viewing a combined-output row as the historical input of a later combiner
run: the combined schema stores occupancy under `Occ` and has **no**
`Occupancy Rate` column, so `r.get("Occupancy Rate")` yields `none`. -/
def combinedAsHistInput (c : CombinedRow) : HistRow :=
  { date := c.date,
    roomType := c.roomType,
    avgRoomRate := c.avgRoomRate,
    occupancyRate := none,
    isHoliday := c.isHoliday,
    isWeekend := c.isWeekend,
    isSchoolHoliday := c.isSchoolHoliday,
    isEvent := c.isEvent }

/-- A combined row in "historical form": exactly the shape `histToCombined`
produces (forecast columns mirroring actuals, zero errors, present flags,
default block length and bridge flag). -/
def histFormRow (c : CombinedRow) : Prop :=
  c.forecastedARR = c.avgRoomRate ∧ c.errorARR = some 0 ∧ c.errorOcc = some 0 ∧
    c.isHoliday.isSome = true ∧ c.isWeekend.isSome = true ∧
    c.isSchoolHoliday.isSome = true ∧ c.isEvent.isSome = true ∧
    c.holidayBlockLength = 0 ∧ c.isBridge = false

instance (c : CombinedRow) : Decidable (histFormRow c) :=
  inferInstanceAs (Decidable
    (c.forecastedARR = c.avgRoomRate ∧ c.errorARR = some 0 ∧ c.errorOcc = some 0 ∧
      c.isHoliday.isSome = true ∧ c.isWeekend.isSome = true ∧
      c.isSchoolHoliday.isSome = true ∧ c.isEvent.isSome = true ∧
      c.holidayBlockLength = 0 ∧ c.isBridge = false))

/-! ## Concrete inputs used by witnesses and counterexamples -/

/-- The fixed room-type categories of `_map_room_type`. -/
def fixedRoomTypes : List String := ["Deluxe", "Executive Suite", "Suite", "Family Suite"]

/-- A well-formed two-night reservation: room 101, Deluxe, arrival day 0,
departure day 2, rate 100 (the spec's expansion scenario with 2024-01-01 as
day 0). -/
def exReservation : Reservation :=
  { arrivalDate := some 0, departDate := some 2, roomType := some "Deluxe",
    arrangement := some "RO", roomNumber := some 101, segment := some "FIT",
    roomRate := some 100 }

/-- A reservation with parseable dates but a missing room type. -/
def exNoRoomType : Reservation :=
  { arrivalDate := some 0, departDate := some 2, roomType := none,
    arrangement := some "RO", roomNumber := some 101, segment := some "FIT",
    roomRate := some 100 }

/-- A reservation whose raw room type `"ZZZ"` resolves to no fixed category. -/
def exUnmappedRoom : Reservation :=
  { arrivalDate := some 0, departDate := some 1, roomType := some "ZZZ",
    arrangement := some "RO", roomNumber := some 1, segment := some "FIT",
    roomRate := some 100 }

/-- The occupancy scenario input: 8 paid one-night stays in distinct rooms on
day 0, one blocked (`COMP`) stay in a ninth room, inventory map totalling 10,
one room out for maintenance. -/
def exOccSrc : List Reservation :=
  (List.range 8).map (fun n =>
    { arrivalDate := some 0, departDate := some 1, roomType := some "Deluxe",
      arrangement := some "RO", roomNumber := some ((n : Int) + 1),
      segment := some "FIT", roomRate := some 100 }) ++
  [{ arrivalDate := some 0, departDate := some 1, roomType := some "Deluxe",
     arrangement := some "RO", roomNumber := some 9, segment := some "COMP",
     roomRate := some 100 }]

def exOccInv : Option (List (String × Int)) := some [("Deluxe", 10)]

def exOccMaint : Option (List MaintRow) := some [{ date := 0, roomType := "Deluxe", quantity := 1 }]

/-- Two same-day paid reservations of different room types (for the
hotel-wide-occupancy witness). -/
def exTwoTypesSrc : List Reservation :=
  [{ arrivalDate := some 0, departDate := some 1, roomType := some "Deluxe",
     arrangement := some "RO", roomNumber := some 1, segment := some "FIT",
     roomRate := some 100 },
   { arrivalDate := some 0, departDate := some 1, roomType := some "Suite",
     arrangement := some "HB", roomNumber := some 2, segment := some "FIT",
     roomRate := some 200 }]

/-- A combined-output historical row (produced by `histToCombined`) with a
non-null occupancy. -/
def exCombinedHistRow : CombinedRow :=
  histToCombined
    { date := 0, roomType := some "Deluxe", avgRoomRate := some 100,
      occupancyRate := some 1, isHoliday := some true, isWeekend := some false,
      isSchoolHoliday := some false, isEvent := some false }

/-- An ARR-forecast row carrying a non-default bridge flag. -/
def exArrRow : ArrForecastRow :=
  { date := 0, roomType := some "Deluxe", forecastedARR := some 100,
    isHoliday := some true, isWeekend := some false, isSchoolHoliday := some false,
    isEvent := some false, holidayBlockLength := none, isBridge := some true }

end Forecal

namespace Forecal

/-! ## Theorems -/

/-- Pointwise value of an array built by `(List.range n).map f`. -/
theorem getD_range_map {α : Type} (f : Nat → α) {n i : Nat} (d : α) (h : i < n) :
    ((List.range n).map f).getD i d = f i := by
  rw [List.getD_eq_getElem?_getD, List.getElem?_map, List.getElem?_range h]
  rfl

theorem length_range_map {α : Type} (f : Nat → α) (n : Nat) :
    ((List.range n).map f).length = n := by
  rw [List.length_map, List.length_range]

theorem getB_oob {xs : List Bool} {i : Nat} (h : xs.length ≤ i) : getB xs i = false :=
  List.getD_eq_default _ _ h

theorem getB_true_lt {xs : List Bool} {i : Nat} (h : getB xs i = true) : i < xs.length := by
  by_contra hc
  rw [getB_oob (Nat.le_of_not_lt hc)] at h
  exact Bool.false_ne_true h

theorem seedList_length (df : List CalRow) : (seedList df).length = df.length :=
  length_range_map _ _

theorem getB_seedList {df : List CalRow} {i : Nat} (h : i < df.length) :
    getB (seedList df) i = (getB (natList df) i || getB (weList df) i) :=
  getD_range_map _ false h

theorem getB_bridgeList {df : List CalRow} {i : Nat} (h : i < df.length) :
    getB (bridgeList df) i
      = (!getB (seedList df) i && (leftOf (seedList df) i && rightOf (seedList df) i)) :=
  getD_range_map _ false h

/-- **C3.** In the calendar feature builder, `Is_Bridge` at position `i` is true
iff the date at `i` is not itself a seed (national-holiday-or-weekend) day and
both the immediately preceding and following positions exist and are seed
days.  (In particular positions `0` and `n-1` are never bridges.) -/
theorem bridge_iff (df : List CalRow) (i : Nat) (hi : i < df.length) :
    getB (bridgeList df) i = true ↔
      (getB (seedList df) i = false ∧ 0 < i ∧ i + 1 < df.length ∧
        getB (seedList df) (i - 1) = true ∧ getB (seedList df) (i + 1) = true) := by
  rw [getB_bridgeList hi]
  constructor
  · intro h
    have h1 : (!getB (seedList df) i) = true := (Bool.and_eq_true_iff.mp h).1
    have h2 := (Bool.and_eq_true_iff.mp (Bool.and_eq_true_iff.mp h).2).1
    have h3 := (Bool.and_eq_true_iff.mp (Bool.and_eq_true_iff.mp h).2).2
    have hs : getB (seedList df) i = false := by
      cases hv : getB (seedList df) i
      · rfl
      · rw [hv] at h1; exact absurd h1 (by decide)
    have hpos : 0 < i := by
      by_contra hc
      have : i = 0 := Nat.eq_zero_of_not_pos hc
      rw [leftOf, if_pos this] at h2
      exact absurd h2 (by decide)
    have hleft : getB (seedList df) (i - 1) = true := by
      rw [leftOf, if_neg (Nat.pos_iff_ne_zero.mp hpos)] at h2
      exact h2
    have hlt : i + 1 < df.length := by
      have hlt' : i + 1 < (seedList df).length := getB_true_lt h3
      rwa [seedList_length] at hlt'
    exact ⟨hs, hpos, hlt, hleft, h3⟩
  · rintro ⟨hs, hpos, _, hleft, hright⟩
    rw [hs, leftOf, if_neg (Nat.pos_iff_ne_zero.mp hpos), hleft, rightOf, hright]
    rfl

/-- Witness for `bridge_iff`: the seed pattern `[H, -, H]` flags the middle
day as a bridge. -/
theorem bridge_iff_witness :
    getB (bridgeList [⟨true, false⟩, ⟨false, false⟩, ⟨true, false⟩]) 1 = true :=
  (bridge_iff [⟨true, false⟩, ⟨false, false⟩, ⟨true, false⟩] 1 (by decide)).mpr (by decide)

theorem getB_wk1List (df : List CalRow) (i : Nat) :
    getB (wk1List df) i = pass1At df i := by
  by_cases h : i < df.length
  · exact getD_range_map _ false h
  · have hn := Nat.le_of_not_lt h
    have h1 : getB (wk1List df) i = false :=
      getB_oob (by rw [wk1List, length_range_map]; exact hn)
    have h2 : getB (weList df) i = false :=
      getB_oob (by rw [weList, List.length_map]; exact hn)
    rw [h1, pass1At, h2, Bool.false_and]

theorem getB_wk2List (df : List CalRow) (i : Nat) :
    getB (wk2List df) i = pass2At df i := by
  by_cases h : i < df.length
  · have h2 : getB (wk2List df) i
        = (getB (weList df) i && (leftOf (wk1List df) i || rightOf (wk1List df) i)) :=
      getD_range_map _ false h
    rw [h2, pass2At]
    simp only [leftOf, rightOf, getB_wk1List]
  · have hn := Nat.le_of_not_lt h
    have h1 : getB (wk2List df) i = false :=
      getB_oob (by rw [wk2List, length_range_map]; exact hn)
    have h2 : getB (weList df) i = false :=
      getB_oob (by rw [weList, List.length_map]; exact hn)
    rw [h1, pass2At, h2, Bool.false_and]

theorem getB_isHolidayList {df : List CalRow} {i : Nat} (h : i < df.length) :
    getB (isHolidayList df) i
      = (getB (baseList df) i || (getB (wk1List df) i || getB (wk2List df) i)) :=
  getD_range_map _ false h

/-- **C4.** The final `Is_Holiday` flag equals `base OR pass1 OR pass2`, where
`base = national-holiday OR bridge`, pass 1 marks weekend days adjacent to a
base day and pass 2 marks weekend days adjacent to a pass-1 day; consequently
a position with no base day within distance 2 is never marked holiday. -/
theorem is_holiday_three_pass (df : List CalRow) (i : Nat) (hi : i < df.length) :
    getB (isHolidayList df) i
        = (getB (baseList df) i || (pass1At df i || pass2At df i)) ∧
      ((∀ j, i ≤ j + 2 → j ≤ i + 2 → getB (baseList df) j = false) →
        getB (isHolidayList df) i = false) := by
  have hmain : getB (isHolidayList df) i
      = (getB (baseList df) i || (pass1At df i || pass2At df i)) := by
    rw [getB_isHolidayList hi, getB_wk1List, getB_wk2List]
  refine ⟨hmain, fun hw => ?_⟩
  have hbase : getB (baseList df) i = false := hw i (by omega) (by omega)
  have hb1 : getB (baseList df) (i + 1) = false := hw (i + 1) (by omega) (by omega)
  have hb2 : getB (baseList df) (i + 2) = false := hw (i + 2) (by omega) (by omega)
  have hp1 : pass1At df i = false := by
    rw [pass1At, hb1]
    rcases Nat.eq_zero_or_pos i with h0 | h0
    · rw [if_pos h0, Bool.or_false, Bool.and_false]
    · rw [if_neg (Nat.pos_iff_ne_zero.mp h0), hw (i - 1) (by omega) (by omega),
        Bool.or_false, Bool.and_false]
  have hp1r : pass1At df (i + 1) = false := by
    have hsub : i + 1 - 1 = i := by omega
    rw [pass1At, if_neg (by omega : ¬ i + 1 = 0), hsub, hbase, hb2,
      Bool.or_false, Bool.and_false]
  have hp2 : pass2At df i = false := by
    rw [pass2At, hp1r]
    rcases Nat.eq_zero_or_pos i with h0 | h0
    · rw [if_pos h0, Bool.or_false, Bool.and_false]
    · have hp1l : pass1At df (i - 1) = false := by
        have hsub : i - 1 + 1 = i := by omega
        rw [pass1At, hsub, hbase]
        rcases Nat.lt_or_ge i 2 with h2 | h2
        · rw [if_pos (by omega), Bool.or_false, Bool.and_false]
        · rw [if_neg (by omega), hw (i - 1 - 1) (by omega) (by omega),
            Bool.or_false, Bool.and_false]
      rw [if_neg (Nat.pos_iff_ne_zero.mp h0), hp1l, Bool.or_false, Bool.and_false]
  rw [hmain, hbase, hp1, hp2]
  rfl

/-- Witness for `is_holiday_three_pass`: a Saturday adjacent to a national
holiday is marked holiday by pass 1, and an isolated mid-week day with no base
day within two positions stays unmarked. -/
theorem is_holiday_three_pass_witness :
    getB (isHolidayList [⟨true, false⟩, ⟨false, true⟩, ⟨false, false⟩]) 1
        = (getB (baseList [⟨true, false⟩, ⟨false, true⟩, ⟨false, false⟩]) 1
            || (pass1At [⟨true, false⟩, ⟨false, true⟩, ⟨false, false⟩] 1
               || pass2At [⟨true, false⟩, ⟨false, true⟩, ⟨false, false⟩] 1)) :=
  (is_holiday_three_pass [⟨true, false⟩, ⟨false, true⟩, ⟨false, false⟩] 1 (by decide)).1

theorem distFwdGo_pos (t : List Bool) : ∀ (last : Int) (i : Nat), last < (i : Int) →
    ∀ j, j < t.length → t.getD j false = false → 0 < (distFwdGo t last i).getD j 0 := by
  induction t with
  | nil => intro last i _ j hj _; exact absurd hj (by simp)
  | cons h tl ih =>
    intro last i hlast j hj hfalse
    cases j with
    | zero =>
      have hh : h = false := by simpa using hfalse
      subst hh
      simp only [distFwdGo, Bool.false_eq_true, if_false, List.getD_cons_zero]
      omega
    | succ j =>
      have hstep : (if h then (i : Int) else last) < ((i + 1 : Nat) : Int) := by
        cases h
        · simp only [Bool.false_eq_true, if_false]; push_cast; omega
        · simp only [if_true]; push_cast; omega
      simp only [distFwdGo, List.getD_cons_succ]
      exact ih _ _ hstep j (by simpa using hj) (by simpa using hfalse)

theorem distBwdGo_snd (t : List Bool) :
    ∀ i : Nat, (distBwdGo t i).2 = INF ∨ ((i : Int) ≤ (distBwdGo t i).2) := by
  induction t with
  | nil => intro i; exact Or.inl rfl
  | cons h tl ih =>
    intro i
    simp only [distBwdGo]
    cases h
    · simp only [Bool.false_eq_true, if_false]
      rcases ih (i + 1) with h1 | h1
      · exact Or.inl h1
      · right
        push_cast at h1
        omega
    · simp only [if_true]
      right
      omega

theorem distBwdGo_pos (t : List Bool) : ∀ i : Nat, (i : Int) + t.length ≤ INF →
    ∀ j, j < t.length → t.getD j false = false → 0 < (distBwdGo t i).1.getD j 0 := by
  induction t with
  | nil => intro i _ j hj _; exact absurd hj (by simp)
  | cons h tl ih =>
    intro i hbound j hj hfalse
    cases j with
    | zero =>
      have hh : h = false := by simpa using hfalse
      subst hh
      simp only [distBwdGo, Bool.false_eq_true, if_false, List.getD_cons_zero]
      simp only [List.length_cons] at hbound
      push_cast at hbound
      rcases distBwdGo_snd tl (i + 1) with h1 | h1
      · rw [h1]; omega
      · push_cast at h1; omega
    | succ j =>
      simp only [distBwdGo, List.getD_cons_succ]
      refine ih (i + 1) ?_ j (by simpa using hj) (by simpa using hfalse)
      simp only [List.length_cons] at hbound
      push_cast at hbound ⊢
      omega

theorem getD_distanceList {hol : List Bool} {i : Nat} (h : i < hol.length) :
    (distanceList hol).getD i 0
      = (if getB hol i then 0
          else min ((distFwdList hol).getD i 0) ((distBwdList hol).getD i 0)) :=
  getD_range_map _ 0 h

theorem isHolidayList_length (df : List CalRow) :
    (isHolidayList df).length = df.length :=
  length_range_map _ _

/-- **C5.** In the calendar feature builder (over a daily sequence of at most
`10^9` dates — any real calendar span; `10^9` is the source's own sentinel
`INF`), `Distance_to_Holiday` is `0` at a position iff the final `Is_Holiday`
flag is set there, and it is strictly positive on every non-holiday
position. -/
theorem distance_zero_iff_holiday (df : List CalRow) (hlen : df.length ≤ 10 ^ 9)
    (i : Nat) (hi : i < df.length) :
    ((distanceList (isHolidayList df)).getD i 0 = 0 ↔ getB (isHolidayList df) i = true) ∧
      (getB (isHolidayList df) i = false →
        0 < (distanceList (isHolidayList df)).getD i 0) := by
  have hlen' : (isHolidayList df).length = df.length := isHolidayList_length df
  have hi' : i < (isHolidayList df).length := by omega
  have hget := getD_distanceList hi'
  cases hv : getB (isHolidayList df) i
  · rw [hv] at hget
    simp only [Bool.false_eq_true, if_false] at hget
    have hfwd : 0 < (distFwdList (isHolidayList df)).getD i 0 := by
      refine distFwdGo_pos (isHolidayList df) (-INF) 0 ?_ i hi' hv
      simp only [INF]
      omega
    have hbwd : 0 < (distBwdList (isHolidayList df)).getD i 0 := by
      refine distBwdGo_pos (isHolidayList df) 0 ?_ i hi' hv
      simp only [INF]
      omega
    have hmin : 0 < min ((distFwdList (isHolidayList df)).getD i 0)
        ((distBwdList (isHolidayList df)).getD i 0) := lt_min hfwd hbwd
    constructor
    · rw [hget]
      constructor
      · intro h0; omega
      · intro hc; exact absurd hc (by decide)
    · intro _
      rw [hget]
      exact hmin
  · rw [hv] at hget
    simp only [if_true] at hget
    refine ⟨⟨fun _ => rfl, fun _ => hget⟩, fun hfalse => ?_⟩
    exact absurd hfalse (by decide)

/-- Witness for `distance_zero_iff_holiday`: a two-day sequence whose first day
is a national holiday; the second day is no holiday and gets distance `> 0`. -/
theorem distance_zero_iff_holiday_witness :
    0 < (distanceList (isHolidayList [⟨true, false⟩, ⟨false, false⟩])).getD 1 0 :=
  (distance_zero_iff_holiday [⟨true, false⟩, ⟨false, false⟩] (by norm_num) 1
    (by decide)).2 (by decide)

/-- **C6 counterexample.** A reservation with parseable dates (`arrival = 0`,
`departure = 2`) but a missing room-type value produces `0` daily rows, not
`departure − arrival = 2`: the trailing `room_type.notna()` filter of
`expand_stays_to_daily_rows` drops its rows. -/
theorem expand_rows_counterexample :
    exNoRoomType.arrivalDate = some 0 ∧ exNoRoomType.departDate = some 2 ∧
      expand_stays_to_daily_rows [exNoRoomType] = [] ∧
      (expand_stays_to_daily_rows [exNoRoomType]).length ≠ ((2 : Int) - 0).toNat := by
  decide

/-- **C6 (amended).** For every reservation with parseable dates whose final
room-type value is non-null, `expand_stays_to_daily_rows` emits exactly one
daily row per calendar date of the half-open interval `[arrival, departure)` —
`(departure − arrival).toNat` rows, each carrying the reservation's nightly
rate — and zero rows when `departure ≤ arrival` (then the range is empty). -/
theorem expand_rows_amended (r : Reservation) (a d : Int)
    (ha : r.arrivalDate = some a) (hd : r.departDate = some d)
    (hroom : (finalRoomType r).isSome = true) :
    expand_stays_to_daily_rows [r]
        = (List.range (d - a).toNat).map (fun k =>
            { date := a + k, roomType := finalRoomType r, arrangement := r.arrangement,
              roomNumber := r.roomNumber, segment := r.segment,
              nightlyRate := r.roomRate }) ∧
      (expand_stays_to_daily_rows [r]).length = (d - a).toNat := by
  have hstay : stayRows r
      = if d ≤ a then []
        else (List.range (d - a).toNat).map (fun k =>
          { date := a + k, roomType := finalRoomType r, arrangement := r.arrangement,
            roomNumber := r.roomNumber, segment := r.segment,
            nightlyRate := r.roomRate }) := by
    unfold stayRows
    rw [ha, hd]
  have hexp : expand_stays_to_daily_rows [r]
      = (stayRows r).filter (fun row => row.roomType.isSome) := by
    unfold expand_stays_to_daily_rows
    rw [List.flatMap_cons, List.flatMap_nil, List.append_nil]
  by_cases hda : d ≤ a
  · have hz : (d - a).toNat = 0 := Int.toNat_of_nonpos (by omega)
    rw [hexp, hstay, if_pos hda, hz]
    exact ⟨rfl, rfl⟩
  · have hfil : ((List.range (d - a).toNat).map (fun k : Nat =>
        ({ date := a + (k : Int), roomType := finalRoomType r, arrangement := r.arrangement,
           roomNumber := r.roomNumber, segment := r.segment,
           nightlyRate := r.roomRate } : DailyRow))).filter
          (fun row => row.roomType.isSome)
        = (List.range (d - a).toNat).map (fun k : Nat =>
            { date := a + (k : Int), roomType := finalRoomType r, arrangement := r.arrangement,
              roomNumber := r.roomNumber, segment := r.segment,
              nightlyRate := r.roomRate }) := by
      refine List.filter_eq_self.mpr ?_
      intro x hx
      rcases List.mem_map.mp hx with ⟨k, _, rfl⟩
      simpa using hroom
    rw [hexp, hstay, if_neg hda, hfil]
    exact ⟨rfl, by rw [List.length_map, List.length_range]⟩

/-- Witness for `expand_rows_amended`: the spec scenario — a Deluxe stay,
arrival day 0, departure day 2, rate 100 — expands to exactly the two rows
dated 0 and 1 with nightly rate 100. -/
theorem expand_rows_amended_witness :
    expand_stays_to_daily_rows [exReservation]
      = [{ date := 0, roomType := some "Deluxe", arrangement := some "RO",
           roomNumber := some 101, segment := some "FIT", nightlyRate := some 100 },
         { date := 1, roomType := some "Deluxe", arrangement := some "RO",
           roomNumber := some 101, segment := some "FIT", nightlyRate := some 100 }] := by
  have h := (expand_rows_amended exReservation 0 2 rfl rfl (by decide)).1
  rw [h]
  decide

/-- **C1.** For every date with at least one expanded daily stay row, the daily
occupancy rate of `build_feature_dataset` equals
`min(1, sold / max(1, inventory − blocked − maintenance))` with `sold` the
distinct paid room count, `blocked` the distinct excluded-segment room count,
`maintenance` the summed maintenance quantity and `inventory` the summed
inventory map (or the inferred distinct-room count); and the spec scenario
`inventory = 10, sold = 8, blocked = 1, maintenance = 1` yields
`available = 8` and occupancy `1`. -/
theorem occupancy_rate_formula :
    (∀ (src : List Reservation) (excludedSegments : List String)
        (inv : Option (List (String × Int))) (maint : Option (List MaintRow)) (d : Int),
      d ∈ uniqueDates (expand_stays_to_daily_rows src) →
        (occEntryFor (excludedSegments.map strUpper) (expand_stays_to_daily_rows src)
            maint inv d).dailyOccupancyRate
          = min 1 ((roomsSoldOn (excludedSegments.map strUpper)
                (expand_stays_to_daily_rows src) d : ℚ) /
              ((max 1 (totalInventoryOn inv (expand_stays_to_daily_rows src) d
                  - (roomsBlockedOn (excludedSegments.map strUpper)
                      (expand_stays_to_daily_rows src) d : Int)
                  - maintenanceOn maint d) : Int) : ℚ))) ∧
    ((occEntryFor (List.map strUpper ["COMP", "HU"]) (expand_stays_to_daily_rows exOccSrc)
        exOccMaint exOccInv 0).availableInventory = 8 ∧
      (occEntryFor (List.map strUpper ["COMP", "HU"]) (expand_stays_to_daily_rows exOccSrc)
        exOccMaint exOccInv 0).dailyOccupancyRate = 1) := by
  refine ⟨fun src excludedSegments inv maint d _ => rfl, by decide, ?_⟩
  show min 1 ((roomsSoldOn (List.map strUpper ["COMP", "HU"])
        (expand_stays_to_daily_rows exOccSrc) 0 : ℚ) /
      (availableInventoryOn (List.map strUpper ["COMP", "HU"])
        (expand_stays_to_daily_rows exOccSrc) exOccMaint exOccInv 0 : ℚ)) = 1
  have h1 : roomsSoldOn (List.map strUpper ["COMP", "HU"])
      (expand_stays_to_daily_rows exOccSrc) 0 = 8 := by decide
  have h2 : availableInventoryOn (List.map strUpper ["COMP", "HU"])
      (expand_stays_to_daily_rows exOccSrc) exOccMaint exOccInv 0 = 8 := by decide
  rw [h1, h2]
  norm_num

/-- Witness for `occupancy_rate_formula`: the formula instantiated on the
scenario input. -/
theorem occupancy_rate_formula_witness :
    (occEntryFor (List.map strUpper ["COMP", "HU"]) (expand_stays_to_daily_rows exOccSrc)
        exOccMaint exOccInv 0).dailyOccupancyRate
      = min 1 ((roomsSoldOn (List.map strUpper ["COMP", "HU"])
            (expand_stays_to_daily_rows exOccSrc) 0 : ℚ) /
          ((max 1 (totalInventoryOn exOccInv (expand_stays_to_daily_rows exOccSrc) 0
              - (roomsBlockedOn (List.map strUpper ["COMP", "HU"])
                  (expand_stays_to_daily_rows exOccSrc) 0 : Int)
              - maintenanceOn exOccMaint 0) : Int) : ℚ)) :=
  occupancy_rate_formula.1 exOccSrc ["COMP", "HU"] exOccInv exOccMaint 0 (by decide)

theorem mem_build_feature_dataset_of_key {src : List Reservation}
    {excludedSegments : List String} {inv : Option (List (String × Int))}
    {maint : Option (List MaintRow)} {k : Int × Option String × Option String}
    (hk : k ∈ adrKeys (excludedSegments.map strUpper) (expand_stays_to_daily_rows src)) :
    aggRowFor (excludedSegments.map strUpper) (expand_stays_to_daily_rows src) maint inv k
      ∈ build_feature_dataset src excludedSegments inv maint := by
  unfold build_feature_dataset
  exact (List.mem_insertionSort aggLe).mpr (List.mem_map_of_mem _ hk)

theorem mem_build_feature_dataset_occRate {src : List Reservation}
    {excludedSegments : List String} {inv : Option (List (String × Int))}
    {maint : Option (List MaintRow)} {r : AggRow}
    (h : r ∈ build_feature_dataset src excludedSegments inv maint) :
    r.occupancyRate
      = (occEntryFor (excludedSegments.map strUpper) (expand_stays_to_daily_rows src)
          maint inv r.date).dailyOccupancyRate := by
  unfold build_feature_dataset at h
  rcases List.mem_map.mp ((List.mem_insertionSort aggLe).mp h) with ⟨k, _, rfl⟩
  rfl

/-- **C2.** Any two rows of the daily aggregate table that share the same date
carry the same `Occupancy Rate`: the hotel-wide per-date rate is broadcast to
every (date, room type, arrangement) row of that date. -/
theorem occupancy_hotel_wide (src : List Reservation) (excludedSegments : List String)
    (inv : Option (List (String × Int))) (maint : Option (List MaintRow))
    (r1 r2 : AggRow) (h1 : r1 ∈ build_feature_dataset src excludedSegments inv maint)
    (h2 : r2 ∈ build_feature_dataset src excludedSegments inv maint)
    (hdate : r1.date = r2.date) : r1.occupancyRate = r2.occupancyRate := by
  rw [mem_build_feature_dataset_occRate h1, mem_build_feature_dataset_occRate h2, hdate]

/-- Witness for `occupancy_hotel_wide`: two same-day aggregate rows of
different room types. -/
theorem occupancy_hotel_wide_witness :
    (aggRowFor (List.map strUpper ["COMP", "HU"]) (expand_stays_to_daily_rows exTwoTypesSrc)
        none none (0, some "Deluxe", some "RO")).occupancyRate
      = (aggRowFor (List.map strUpper ["COMP", "HU"]) (expand_stays_to_daily_rows exTwoTypesSrc)
          none none (0, some "Suite", some "HB")).occupancyRate :=
  occupancy_hotel_wide exTwoTypesSrc ["COMP", "HU"] none none _ _
    (mem_build_feature_dataset_of_key (by decide))
    (mem_build_feature_dataset_of_key (by decide))
    rfl

theorem uniqAux_subset {α : Type} [DecidableEq α] :
    ∀ (l seen : List α) (x : α), x ∈ uniqAux l seen → x ∈ l := by
  intro l
  induction l with
  | nil => intro seen x h; exact absurd h (by simp [uniqAux])
  | cons y ys ih =>
    intro seen x h
    unfold uniqAux at h
    by_cases hy : y ∈ seen
    · rw [if_pos hy] at h
      exact List.mem_cons_of_mem y (ih _ x h)
    · rw [if_neg hy] at h
      rcases List.mem_cons.mp h with rfl | h'
      · exact List.mem_cons_self x ys
      · exact List.mem_cons_of_mem y (ih _ x h')

theorem pdUnique_subset {α : Type} [DecidableEq α] {l : List α} {x : α}
    (h : x ∈ pdUnique l) : x ∈ l :=
  uniqAux_subset l [] x h

theorem stayRows_roomType {res : Reservation} {dr : DailyRow} (h : dr ∈ stayRows res) :
    dr.roomType = finalRoomType res := by
  rcases ha : res.arrivalDate with _ | a
  · unfold stayRows at h
    rw [ha] at h
    exact absurd h (by simp)
  · rcases hd : res.departDate with _ | d
    · unfold stayRows at h
      rw [ha, hd] at h
      exact absurd h (by simp)
    · have hstay : stayRows res
          = if d ≤ a then []
            else (List.range (d - a).toNat).map (fun k : Nat =>
              ({ date := a + (k : Int), roomType := finalRoomType res,
                 arrangement := res.arrangement, roomNumber := res.roomNumber,
                 segment := res.segment, nightlyRate := res.roomRate } : DailyRow)) := by
        unfold stayRows
        rw [ha, hd]
      rw [hstay] at h
      by_cases hda : d ≤ a
      · rw [if_pos hda] at h
        exact absurd h (by simp)
      · rw [if_neg hda] at h
        rcases List.mem_map.mp h with ⟨k, _, rfl⟩
        rfl

theorem fixedRoomTypes_ne_empty : ∀ s ∈ fixedRoomTypes, s ≠ "" := by decide

theorem map_room_type_mem {x : Option String} {m : String}
    (h : map_room_type x = some m) : m ∈ fixedRoomTypes := by
  rcases x with _ | raw
  · exact absurd h (by simp [map_room_type])
  · unfold map_room_type at h
    repeat' split at h
    all_goals simp_all [fixedRoomTypes]

/-- **C7 counterexample.** A paid stay whose raw room type `"ZZZ"` resolves to
no fixed category still reaches the aggregate table: its `Room Type` is the
raw string `"ZZZ"`, outside `{Deluxe, Executive Suite, Suite, Family Suite}`,
because `expand_stays_to_daily_rows` keeps the trimmed raw value when the
first-letter mapping fails. -/
theorem room_type_fixed_set_counterexample :
    ∃ r, r ∈ build_feature_dataset [exUnmappedRoom] ["COMP", "HU"] none none ∧
      r.roomType = some "ZZZ" ∧ ∀ s ∈ fixedRoomTypes, r.roomType ≠ some s :=
  ⟨aggRowFor (List.map strUpper ["COMP", "HU"])
      (expand_stays_to_daily_rows [exUnmappedRoom]) none none (0, some "ZZZ", some "RO"),
    mem_build_feature_dataset_of_key (by decide), rfl, by decide⟩

/-- **C7 (amended).** Every aggregate row's `Room Type` is a non-empty string
`s` that is the final room type of some source reservation: either one of the
fixed categories (first-letter mapping succeeded) or the trimmed raw value of
a reservation whose raw room type failed the mapping.  Only rows with a
missing/empty room-type value are dropped before aggregation. -/
theorem room_type_amended (src : List Reservation) (excludedSegments : List String)
    (inv : Option (List (String × Int))) (maint : Option (List MaintRow)) (r : AggRow)
    (h : r ∈ build_feature_dataset src excludedSegments inv maint) :
    ∃ s, r.roomType = some s ∧ s ≠ "" ∧
      ∃ res ∈ src, finalRoomType res = some s ∧
        (s ∈ fixedRoomTypes ∨
          ∃ raw, res.roomType = some raw ∧ map_room_type (some raw) = none ∧
            s = strTrim raw) := by
  unfold build_feature_dataset at h
  rcases List.mem_map.mp ((List.mem_insertionSort aggLe).mp h) with ⟨k, hk, rfl⟩
  have hk' := pdUnique_subset hk
  rcases List.mem_map.mp hk' with ⟨dr, hdr, hkey⟩
  have hdr' := List.mem_filter.mp hdr
  have hdaily := hdr'.1
  unfold expand_stays_to_daily_rows at hdaily
  have hdaily' := List.mem_filter.mp hdaily
  rcases List.mem_flatMap.mp hdaily'.1 with ⟨res, hres, hstay⟩
  have hrt : dr.roomType = finalRoomType res := stayRows_roomType hstay
  have hsome : dr.roomType.isSome = true := by simpa using hdaily'.2
  rw [hrt] at hsome
  rcases Option.isSome_iff_exists.mp hsome with ⟨s, hs⟩
  have hkrt : (aggRowFor (excludedSegments.map strUpper)
      (expand_stays_to_daily_rows src) maint inv k).roomType = k.2.1 := rfl
  have hk21 : k.2.1 = some s := by
    rw [← hkey]
    simpa [hrt] using hs
  refine ⟨s, by rw [hkrt, hk21], ?_, res, hres, hs, ?_⟩
  · -- s is non-empty in both branches of finalRoomType
    unfold finalRoomType at hs
    rcases hmap : map_room_type res.roomType with _ | m <;> rw [hmap] at hs
    · rcases hraw : res.roomType with _ | raw <;> rw [hraw] at hs
      · exact absurd hs (by simp)
      · have hs2 : (if strTrim raw = "" then (none : Option String)
            else some (strTrim raw)) = some s := hs
        by_cases hemp : strTrim raw = ""
        · rw [if_pos hemp] at hs2
          exact absurd hs2 (by simp)
        · rw [if_neg hemp] at hs2
          have heq : strTrim raw = s := by simpa using hs2
          rw [← heq]
          exact hemp
    · have hm : m = s := by
        have hs2 : (some m : Option String) = some s := hs
        simpa using hs2
      subst hm
      exact fixedRoomTypes_ne_empty m (map_room_type_mem hmap)
  · -- provenance: fixed category or trimmed raw fallback
    unfold finalRoomType at hs
    rcases hmap : map_room_type res.roomType with _ | m <;> rw [hmap] at hs
    · rcases hraw : res.roomType with _ | raw <;> rw [hraw] at hs
      · exact absurd hs (by simp)
      · have hs2 : (if strTrim raw = "" then (none : Option String)
            else some (strTrim raw)) = some s := hs
        by_cases hemp : strTrim raw = ""
        · rw [if_pos hemp] at hs2
          exact absurd hs2 (by simp)
        · rw [if_neg hemp] at hs2
          have heq : strTrim raw = s := by simpa using hs2
          exact Or.inr ⟨raw, rfl, by rw [← hraw]; exact hmap, heq.symm⟩
    · have hm : m = s := by
        have hs2 : (some m : Option String) = some s := hs
        simpa using hs2
      subst hm
      exact Or.inl (map_room_type_mem hmap)

/-- Witness for `room_type_amended`: the `"ZZZ"` aggregate row's provenance. -/
theorem room_type_amended_witness :
    ∃ s, (aggRowFor (List.map strUpper ["COMP", "HU"])
          (expand_stays_to_daily_rows [exUnmappedRoom]) none none
          (0, some "ZZZ", some "RO")).roomType = some s ∧ s ≠ "" ∧
      ∃ res ∈ [exUnmappedRoom], finalRoomType res = some s ∧
        (s ∈ fixedRoomTypes ∨
          ∃ raw, res.roomType = some raw ∧ map_room_type (some raw) = none ∧
            s = strTrim raw) :=
  room_type_amended [exUnmappedRoom] ["COMP", "HU"] none none _
    (mem_build_feature_dataset_of_key (by decide))

/-- **C8 counterexample.** Feeding a combined-output historical row back
through `combine_forecasts` (with empty forecast inputs) does not reproduce
it: the combiner reads the column `Occupancy Rate`, which the combined schema
stores as `Occ`, so `Occ` and `Forecasted Occ` come back null. -/
theorem combine_roundtrip_counterexample :
    combine_forecasts [] [] [combinedAsHistInput exCombinedHistRow]
      ≠ [exCombinedHistRow] := by
  decide

/-- **C8 (amended).** Feeding the historical rows of a combined table back
through `combine_forecasts` with empty forecast inputs reproduces every row
except that `Occ` and `Forecasted Occ` become null (the combined schema has no
`Occupancy Rate` column for the combiner to read); all other columns and the
order are preserved. -/
theorem combine_roundtrip_amended (cs : List CombinedRow)
    (hform : ∀ c ∈ cs, histFormRow c) (hsorted : List.Sorted combinedLe cs) :
    combine_forecasts [] [] (cs.map combinedAsHistInput)
      = cs.map (fun c => { c with occ := none, forecastedOcc := none }) := by
  have hmap : (cs.map combinedAsHistInput).map histToCombined
      = cs.map (fun c => { c with occ := none, forecastedOcc := none }) := by
    rw [List.map_map]
    refine List.map_congr_left ?_
    intro c hc
    rcases hform c hc with ⟨hf, he1, he2, hH, hW, hS, hE, hB, hBr⟩
    rcases Option.isSome_iff_exists.mp hH with ⟨bH, hbH⟩
    rcases Option.isSome_iff_exists.mp hW with ⟨bW, hbW⟩
    rcases Option.isSome_iff_exists.mp hS with ⟨bS, hbS⟩
    rcases Option.isSome_iff_exists.mp hE with ⟨bE, hbE⟩
    show histToCombined (combinedAsHistInput c) = _
    unfold histToCombined combinedAsHistInput
    cases c
    simp_all
  unfold combine_forecasts
  have hm0 : mergeArrOcc [] [] = ([] : List (ArrForecastRow × Option ℚ)) := rfl
  rw [hm0]
  simp only [List.map_nil, List.append_nil]
  rw [hmap]
  refine List.Sorted.insertionSort_eq ?_
  refine List.Pairwise.map _ ?_ hsorted
  intro a b hab
  exact hab

/-- Witness for `combine_roundtrip_amended`: one historical-form row survives
the round trip with only its occupancy columns nulled. -/
theorem combine_roundtrip_amended_witness :
    combine_forecasts [] [] ([exCombinedHistRow].map combinedAsHistInput)
      = [exCombinedHistRow].map (fun c => { c with occ := none, forecastedOcc := none }) :=
  combine_roundtrip_amended [exCombinedHistRow] (by decide)
    (List.sorted_singleton exCombinedHistRow)

theorem kind_lists_disjoint :
    (∀ a ∈ natKindsLower, a ∉ schoolKindsLower) ∧
      (∀ a ∈ natKindsLower, a ∉ eventKindsLower) ∧
      (∀ a ∈ schoolKindsLower, a ∉ eventKindsLower) := by
  decide

theorem contains_eq_false_of_not_mem {s : String} {l : List String} (h : s ∉ l) :
    l.contains s = false := by
  simpa using h

theorem kindToFlags_disjoint (k : String) :
    ((kindToFlags k).isNationalHoliday && (kindToFlags k).isSchoolHoliday) = false ∧
      ((kindToFlags k).isNationalHoliday && (kindToFlags k).isEvent) = false ∧
      ((kindToFlags k).isSchoolHoliday && (kindToFlags k).isEvent) = false := by
  show (natKindsLower.contains (strLower k) && schoolKindsLower.contains (strLower k)) = false ∧
    (natKindsLower.contains (strLower k) && eventKindsLower.contains (strLower k)) = false ∧
    (schoolKindsLower.contains (strLower k) && eventKindsLower.contains (strLower k)) = false
  by_cases h1 : strLower k ∈ natKindsLower
  · have h2 : strLower k ∉ schoolKindsLower := fun hc => kind_lists_disjoint.1 _ h1 hc
    have h3 : strLower k ∉ eventKindsLower := fun hc => kind_lists_disjoint.2.1 _ h1 hc
    rw [contains_eq_false_of_not_mem h2, contains_eq_false_of_not_mem h3]
    simp
  · rw [contains_eq_false_of_not_mem h1]
    by_cases h2 : strLower k ∈ schoolKindsLower
    · have h3 : strLower k ∉ eventKindsLower := fun hc => kind_lists_disjoint.2.2 _ h2 hc
      rw [contains_eq_false_of_not_mem h3]
      simp
    · rw [contains_eq_false_of_not_mem h2]
      simp

/-- **C9.** In `_future_calendar_2026` the holiday-kind flags of a date are
determined by the first holiday-table row matching that date
(`info.iloc[0]`) — later rows for the same date are ignored — and since the
kind lists are pairwise disjoint, at most one of `Is_NationalHoliday`,
`Is_SchoolHoliday`, `Is_Event` is set from the table. -/
theorem future_flags_first_match :
    (∀ (hs : List HolidayInfoRow) (d : Int),
      holidayFlagsFor hs d
        = (match hs.find? (fun h => decide (h.date = d)) with
           | some h0 => kindToFlags h0.kind
           | none => ⟨false, false, false⟩)) ∧
    (∀ (hs : List HolidayInfoRow) (d : Int),
      ((holidayFlagsFor hs d).isNationalHoliday
          && (holidayFlagsFor hs d).isSchoolHoliday) = false ∧
        ((holidayFlagsFor hs d).isNationalHoliday
          && (holidayFlagsFor hs d).isEvent) = false ∧
        ((holidayFlagsFor hs d).isSchoolHoliday
          && (holidayFlagsFor hs d).isEvent) = false) := by
  constructor
  · intro hs d
    induction hs with
    | nil => rfl
    | cons h0 t ih =>
      by_cases hd0 : h0.date = d
      · have hfil : List.filter (fun h : HolidayInfoRow => decide (h.date = d)) (h0 :: t)
            = h0 :: List.filter (fun h : HolidayInfoRow => decide (h.date = d)) t :=
          List.filter_cons_of_pos (by simpa using hd0)
        have hfind : List.find? (fun h : HolidayInfoRow => decide (h.date = d)) (h0 :: t)
            = some h0 :=
          List.find?_cons_of_pos _ (by simpa using hd0)
        unfold holidayFlagsFor
        rw [hfil, hfind]
      · have hfil : List.filter (fun h : HolidayInfoRow => decide (h.date = d)) (h0 :: t)
            = List.filter (fun h : HolidayInfoRow => decide (h.date = d)) t :=
          List.filter_cons_of_neg (by simpa using hd0)
        have hfind : List.find? (fun h : HolidayInfoRow => decide (h.date = d)) (h0 :: t)
            = List.find? (fun h : HolidayInfoRow => decide (h.date = d)) t :=
          List.find?_cons_of_neg _ (by simpa using hd0)
        unfold holidayFlagsFor
        rw [hfil, hfind]
        exact ih
  · intro hs d
    rcases hE : hs.filter (fun h => decide (h.date = d)) with _ | ⟨h0, t⟩
    · have hflag : holidayFlagsFor hs d = ⟨false, false, false⟩ := by
        unfold holidayFlagsFor
        rw [hE]
      rw [hflag]
      exact ⟨rfl, rfl, rfl⟩
    · have hflag : holidayFlagsFor hs d = kindToFlags h0.kind := by
        unfold holidayFlagsFor
        rw [hE]
      rw [hflag]
      exact kindToFlags_disjoint h0.kind

/-- **C10.** `combine_forecasts` writes `holiday_block_length = 0` and
`Is_Bridge = False` into every historical row unconditionally, regardless of
the input row's values; any combined row with a non-default value in either
field comes from the forecast portion (the merged ARR/occupancy rows). -/
theorem hist_default_block_bridge :
    (∀ h : HistRow, (histToCombined h).holidayBlockLength = 0 ∧
      (histToCombined h).isBridge = false) ∧
    (∀ (occF : List OccForecastRow) (arrF : List ArrForecastRow) (hist : List HistRow)
        (c : CombinedRow), c ∈ combine_forecasts occF arrF hist →
      (c.holidayBlockLength ≠ 0 ∨ c.isBridge ≠ false) →
        ∃ p ∈ mergeArrOcc arrF occF, c = fcToCombined p) := by
  constructor
  · intro h
    exact ⟨rfl, rfl⟩
  · intro occF arrF hist c hc hnd
    unfold combine_forecasts at hc
    rcases List.mem_append.mp ((List.mem_insertionSort combinedLe).mp hc) with hmem | hmem
    · rcases List.mem_map.mp hmem with ⟨h, _, rfl⟩
      rcases hnd with hn | hn <;> exact absurd rfl hn
    · rcases List.mem_map.mp hmem with ⟨p, hp, rfl⟩
      exact ⟨p, hp, rfl⟩

/-- Witness for `hist_default_block_bridge`: a forecast row carrying
`Is_Bridge = True` is traced back to the merged forecast portion. -/
theorem hist_default_block_bridge_witness :
    ∃ p ∈ mergeArrOcc [exArrRow] ([] : List OccForecastRow),
      fcToCombined (exArrRow, none) = fcToCombined p :=
  hist_default_block_bridge.2 [] [exArrRow] [] (fcToCombined (exArrRow, none))
    (by decide) (by decide)

end Forecal
